import Mathlib

/-!
Verification of the facial-authentication core of the Asistent repository.

The Lean definitions below are a shallow embedding of the Python sources
`src/face_system.py`, `src/face_auth.py` and `src/face_utils.py`.  Numeric
arrays are modelled as lists of real numbers (exact arithmetic in place of
floating point), image pixels as rationals, and the external library calls
(MediaPipe landmark inference, OpenCV camera and drawing calls) are treated
as boundary inputs to the modelled functions.  Strings kept by the code
("Desconocido", the result messages) are modelled verbatim; "Desconocido"
is the Spanish spelling of the spec sentinel "Unknown".
-/

namespace Asistent

/-! ## Vector primitives (numpy operations used by face_system.py) -/

/-- Model of `np.dot` on 1-D arrays: numpy pairs entries up to the shorter
length, which `List.zipWith` also does. -/
def dotList (u v : List ℝ) : ℝ := (List.zipWith (fun a b => a * b) u v).sum

/-- Sum of squared entries of a vector. -/
def sumsq (v : List ℝ) : ℝ := (v.map (fun x => x ^ 2)).sum

/-- Model of `np.linalg.norm`: the Euclidean norm. -/
noncomputable def norm2 (v : List ℝ) : ℝ := Real.sqrt (sumsq v)

/-- Model of `FaceSystem._normalize_embedding_vector` (face_system.py:236):
divide by the Euclidean norm when it is positive, otherwise return the
vector unchanged. -/
noncomputable def normalizeEmbeddingVector (v : List ℝ) : List ℝ :=
  if 0 < norm2 v then v.map (fun x => x / norm2 v) else v

/-- Model of `FaceSystem._resize_embedding` (face_system.py:144): keep the
vector if it already has the target dimension, truncate if longer, zero-pad
if shorter. -/
def resizeEmbedding (v : List ℝ) (target : Nat) : List ℝ :=
  if v.length = target then v
  else if target < v.length then v.take target
  else v ++ List.replicate (target - v.length) 0

/-! ## Embedding extraction (face_system.py, `_extract_face_embedding`) -/

/-- Model of the landmark flattening loop (face_system.py:210-216): iterate
over the landmarks produced by the external FaceMesh model, stop after the
first 468, and flatten each landmark to its `[x, y, z]` coordinates. -/
def flattenLandmarks (lms : List (ℝ × ℝ × ℝ)) : List ℝ :=
  (lms.take 468).flatMap (fun t => [t.1, t.2.1, t.2.2])

/-- Model of the zero-padding loop (face_system.py:219-220): append
`[0.0, 0.0, 0.0]` while the flattened list is shorter than `468 * 3`. -/
def padLandmarks (l : List ℝ) : List ℝ :=
  if l.length < 1404 then padLandmarks (l ++ [0, 0, 0]) else l
termination_by 1404 - l.length
decreasing_by simp [List.length_append]; omega

/-- Model of `FaceSystem._extract_face_embedding` (face_system.py:193-234).
The `available` flag models `face_detection_available`/`face_mesh is None`;
`faces` models the `multi_face_landmarks` result of the external FaceMesh
call (`none` when no face was found, otherwise the landmark list of the
first face).  The code then flattens at most 468 landmarks, zero-pads up to
1404 values, takes exactly 1404 values, and L2-normalizes. -/
noncomputable def extractFaceEmbedding (available : Bool)
    (faces : Option (List (ℝ × ℝ × ℝ))) : Option (List ℝ) :=
  if available = false then none
  else
    match faces with
    | none => none
    | some lms =>
        some (normalizeEmbeddingVector ((padLandmarks (flattenLandmarks lms)).take 1404))

/-! ## Matching (face_system.py, `recognize_face`) -/

/-- One iteration of the linear scan in `recognize_face`
(face_system.py:338-348): resize the stored embedding to 1404, L2-normalize
it, take the dot product with the (already prepared) query, and keep it as
the running best exactly when it is strictly larger. -/
noncomputable def scanStep (q : List ℝ) (acc : ℝ × Option String)
    (p : List ℝ × String) : ℝ × Option String :=
  let ke := normalizeEmbeddingVector (resizeEmbedding p.1 1404)
  let s := dotList q ke
  if acc.1 < s then (s, some p.2) else acc

/-- Cosine similarity that `recognize_face` assigns to one gallery record:
both the query and the record are resized to 1404 and L2-normalized before
the dot product. -/
noncomputable def simTo (q e : List ℝ) : ℝ :=
  dotList (normalizeEmbeddingVector (resizeEmbedding q 1404))
    (normalizeEmbeddingVector (resizeEmbedding e 1404))

/-- Model of `FaceSystem.recognize_face` (face_system.py:319-363).
`queryExtraction` is the result of `_extract_face_embedding` on the face
crop (the external part of that call being a boundary input).  The code
returns `("Desconocido", 0.0)` when the gallery is empty or extraction
failed, otherwise scans linearly starting from best similarity `-1` and no
best name, maps the best similarity `s` to confidence `(s + 1) / 2`, and
compares the confidence inclusively against the threshold. -/
noncomputable def recognizeFace (threshold : ℝ) (knownNames : List String)
    (knownEmbeddings : List (List ℝ)) (queryExtraction : Option (List ℝ)) :
    String × ℝ :=
  if knownEmbeddings.length = 0 then ("Desconocido", 0)
  else
    match queryExtraction with
    | none => ("Desconocido", 0)
    | some q0 =>
        let q := normalizeEmbeddingVector (resizeEmbedding q0 1404)
        let r := (knownEmbeddings.zip knownNames).foldl (scanStep q) (-1, none)
        match r.2 with
        | none => ("Desconocido", 0)
        | some nm =>
            let c := (r.1 + 1) / 2
            if threshold ≤ c then (nm, c) else ("Desconocido", c)

/-- Specification-side helper: the first element of a list attaining the
maximal key, matching the wording "track the maximum; first-seen candidate
wins ties".  An element is replaced only when a later one is strictly
larger. -/
def firstArgmaxBy {α : Type} {β : Type} [LinearOrder β] (f : α → β) :
    List α → Option α
  | [] => none
  | a :: t =>
    match firstArgmaxBy f t with
    | none => some a
    | some b => if f a < f b then some b else some a

/-! ## Gallery state and operations (face_system.py) -/

/-- The two parallel in-memory lists of `FaceSystem`
(face_system.py:41-42): `known_names` and `known_embeddings`. -/
structure Gallery where
  knownNames : List String
  knownEmbeddings : List (List ℝ)

/-- Characters kept by the name sanitization in `register_face`
(face_system.py:270): alphanumeric characters, space, underscore, dash. -/
def keepChar (c : Char) : Bool :=
  c.isAlphanum || c = ' ' || c = '_' || c = '-'

/-- Model of Python `str.strip()`: drop whitespace characters from both
ends (the source only ever strips ASCII names). -/
def pyStrip (l : List Char) : List Char :=
  ((l.dropWhile Char.isWhitespace).reverse.dropWhile Char.isWhitespace).reverse

/-- Model of the sanitization
`"".join(c for c in name if c.isalnum() or c in (' ', '_', '-')).strip()`. -/
def sanitizeName (name : String) : String :=
  String.mk (pyStrip (name.toList.filter keepChar))

/-- Model of `FaceSystem.register_face` (face_system.py:266-300).
`extraction` is the result of `_extract_face_embedding` on the captured
image.  The filesystem writes (reference image, cache, metadata) are not
modelled; the returned pair is `((success, message), new gallery state)`. -/
def registerFace (g : Gallery) (extraction : Option (List ℝ)) (name : String) :
    (Bool × String) × Gallery :=
  let safeName := sanitizeName name
  if safeName = "" ∨ safeName.length < 2 then ((false, "❌ Nombre inválido"), g)
  else if safeName ∈ g.knownNames then
    ((false, "❌ \x27" ++ safeName ++ "\x27 ya existe"), g)
  else
    match extraction with
    | none => ((false, "❌ No se detectó rostro"), g)
    | some emb =>
        ((true, "✅ \x27" ++ safeName ++ "\x27 registrado"),
         ⟨g.knownNames ++ [safeName], g.knownEmbeddings ++ [emb]⟩)

/-- Model of `FaceSystem.delete_user` (face_system.py:470-493): look up the
first index of the name and remove that index from both parallel lists
(`list.pop(idx)` is `List.eraseIdx`).  File deletions are not modelled. -/
def deleteUser (g : Gallery) (name : String) : (Bool × String) × Gallery :=
  if name ∈ g.knownNames then
    let idx := g.knownNames.indexOf name
    ((true, "✅ \x27" ++ name ++ "\x27 eliminado"),
     ⟨g.knownNames.eraseIdx idx, g.knownEmbeddings.eraseIdx idx⟩)
  else ((false, "❌ \x27" ++ name ++ "\x27 no encontrado"), g)

/-- First occurrences of each dimension, in first-seen order, mirroring the
key order of a CPython `Counter` built from the dimension list. -/
def firstUniqueDims : List Nat → List Nat
  | [] => []
  | d :: t => d :: firstUniqueDims (t.filter (fun x => x ≠ d))
termination_by l => l.length
decreasing_by exact Nat.lt_succ_of_le (List.length_filter_le _ _)

/-- Model of `Counter(dimensions).most_common(1)[0][0]`
(face_system.py:125-127): the most frequent dimension; `most_common` keeps
first-insertion order among equal counts, so the first-seen dimension wins
ties. -/
def mostCommonDim (dims : List Nat) : Nat :=
  match firstArgmaxBy Prod.snd
      ((firstUniqueDims dims).map (fun d => (d, dims.count d))) with
  | some p => p.1
  | none => 0

/-- Model of `FaceSystem._normalize_embeddings` (face_system.py:119-142):
do nothing on an empty list, otherwise resize every embedding to the most
common dimension (`_resize_embedding` already returns embeddings of the
target dimension unchanged). -/
def normalizeEmbeddings (es : List (List ℝ)) : List (List ℝ) :=
  if es.isEmpty then es
  else
    let target := mostCommonDim (es.map List.length)
    es.map (fun e => resizeEmbedding e target)

/-- Per-file outcome of the `_load_from_images` loop (face_system.py:164-181):
`none` models an unreadable image (`cv2.imread` returned `None`) and skipped
files; `some (stem, none)` a readable image on which no embedding could be
extracted; `some (stem, some emb)` a successfully loaded identity. -/
def processImageFiles (g : Gallery) :
    List (Option (String × Option (List ℝ))) → Gallery
  | [] => g
  | none :: rest => processImageFiles g rest
  | some (_, none) :: rest => processImageFiles g rest
  | some (stem, some emb) :: rest =>
      processImageFiles ⟨g.knownNames ++ [stem], g.knownEmbeddings ++ [emb]⟩ rest

/-- Model of `FaceSystem._load_from_images` (face_system.py:159-191):
append a `(name, embedding)` pair for every successfully processed image,
then run the dimension-normalization pass over the embeddings. -/
def loadFromImages (g : Gallery)
    (files : List (Option (String × Option (List ℝ)))) : Gallery :=
  let g2 := processImageFiles g files
  ⟨g2.knownNames, normalizeEmbeddings g2.knownEmbeddings⟩

/-- Model of the state assignment in `FaceSystem._load_from_cache`
(face_system.py:105-110): both lists are assigned from the cache record and
the embeddings are dimension-normalized. -/
def loadFromCache (cachedNames : List String)
    (cachedEmbeddings : List (List ℝ)) : Gallery :=
  ⟨cachedNames, normalizeEmbeddings cachedEmbeddings⟩

/-! ## Camera resource and authentication session (face_auth.py) -/

/-- Camera resource state of `FaceAuthenticator`: whether the handle held in
`self.camera` is open, and the `is_camera_running` flag. -/
structure CamState where
  opened : Bool
  running : Bool
deriving DecidableEq

/-- Model of `FaceAuthenticator.start_camera` (face_auth.py:51-78).
`cameraOk` models whether `cv2.VideoCapture(camera_index)` opens.  When the
handle is not open the method opens it and sets `is_camera_running`; when
the open attempt fails it returns `False` without touching the flag; when
the handle is already open it returns `True` without touching anything. -/
def startCamera (cameraOk : Bool) (st : CamState) : Bool × CamState :=
  if st.opened = false then
    if cameraOk then (true, ⟨true, true⟩) else (false, ⟨false, st.running⟩)
  else (true, st)

/-- Model of `FaceAuthenticator.stop_camera` (face_auth.py:80-87): release
the handle and clear `is_camera_running`. -/
def stopCamera (_st : CamState) : CamState := ⟨false, false⟩

/-- Per-iteration observation of the `authenticate_user` scanning loop.
`noFace` covers the frames the code skips with `continue` (capture failure,
no detected face, empty crop); `frame name confidence` is the result of
`recognize_face` on the primary face crop; `cancel` is a loop iteration on
which the user pressed the `q` key. -/
inductive FrameEv where
  | noFace : FrameEv
  | frame (name : String) (confidence : ℝ) : FrameEv
  | cancel : FrameEv

/-- Model of the scanning loop of `FaceAuthenticator.authenticate_user`
(face_auth.py:145-247), as a function of the finite list of per-frame
observations seen before the timeout.  State arguments mirror the local
variables `consecutive_matches`, `best_match`, `best_confidence`.  On a
confident match (`name != "Desconocido" and confidence >= min_confidence`)
the counter is incremented — the code keeps no `last_matched_name` — the
best seen match is updated on strictly larger confidence, and the loop
returns `(True, name, confidence)` as soon as the counter reaches
`required_consecutive_frames`.  Otherwise the counter is reset to 0.
Exhausting the list models the timeout; `cancel` models the `break`. -/
noncomputable def authScan (minConfidence : ℝ) (required : Nat) :
    List FrameEv → Nat → Option String → ℝ → Bool × Option String × ℝ
  | [], _, bestMatch, bestConfidence => (false, bestMatch, bestConfidence)
  | FrameEv.noFace :: rest, consecutive, bestMatch, bestConfidence =>
      authScan minConfidence required rest consecutive bestMatch bestConfidence
  | FrameEv.cancel :: _, _, bestMatch, bestConfidence =>
      (false, bestMatch, bestConfidence)
  | FrameEv.frame name confidence :: rest, consecutive, bestMatch, bestConfidence =>
      if name ≠ "Desconocido" ∧ minConfidence ≤ confidence then
        let consecutive2 := consecutive + 1
        let best2 :=
          if bestConfidence < confidence then (some name, confidence)
          else (bestMatch, bestConfidence)
        if required ≤ consecutive2 then (true, some name, confidence)
        else authScan minConfidence required rest consecutive2 best2.1 best2.2
      else authScan minConfidence required rest 0 bestMatch bestConfidence

/-- Model of `FaceAuthenticator.authenticate_user` (face_auth.py:113-247)
including its effect on the camera state.  The early exits (no registered
users, camera failure) return `(False, None, 0.0)`.  The `finally` block of
the code only calls `cv2.destroyAllWindows()`; no path of the method calls
`stop_camera`, so the camera state produced by `start_camera` is returned
unchanged on every terminal outcome. -/
noncomputable def authenticateUser (minConfidence : ℝ) (required : Nat)
    (cameraOk : Bool) (userCount : Nat) (frames : List FrameEv)
    (st : CamState) : (Bool × Option String × ℝ) × CamState :=
  if userCount = 0 then ((false, none, 0), st)
  else
    match startCamera cameraOk st with
    | (false, st2) => ((false, none, 0), st2)
    | (true, st2) => (authScan minConfidence required frames 0 none 0, st2)

/-! ## Registration session (face_auth.py, `register_new_user`) -/

/-- Character-list version of `str.startswith`, used to model the Python
substring test. -/
def leadsChars : List Char → List Char → Bool
  | [], _ => true
  | _ :: _, [] => false
  | a :: as, b :: bs => (a = b) && leadsChars as bs

/-- Model of the Python substring test `needle in hay`. -/
def strContainsSub (hay needle : List Char) : Bool :=
  match hay with
  | [] => needle.isEmpty
  | _ :: t => leadsChars needle hay || strContainsSub t needle

/-- Key pressed during one iteration of the registration loop. -/
inductive RegKey where
  | space : RegKey
  | cancelKey : RegKey
  | other : RegKey

/-- Per-iteration observation of the registration loop: the number of
detected faces, the quality score `calculate_face_quality` produced for the
first face, the embedding extraction result that `register_face` would see
for this frame, and the key pressed. -/
structure RegEv where
  faces : Nat
  quality : ℤ
  extraction : Option (List ℝ)
  key : RegKey

/-- Model of the capture loop of `register_new_user` (face_auth.py:283-382).
State arguments mirror the locals `message`, `captured_frame` (tracked as a
Bool: the code assigns `captured_frame = frame` before calling
`register_face`, also when that call then fails).  Returns
`(registration_complete, captured_frame set, message, gallery)`.  A space
press with exactly one detected face and quality at least 50 calls
`register_face`; on success the loop finishes, on failure the error message
is kept and the loop continues.  The `q` key finishes the loop with the
cancellation message.  Exhausting the list models an aborted run. -/
def regLoop (username : String) :
    List RegEv → Gallery → String → Bool → Bool × Bool × String × Gallery
  | [], g, message, captured => (false, captured, message, g)
  | ev :: rest, g, message, captured =>
    match ev.key with
    | RegKey.space =>
        if ev.faces = 1 then
          if 50 ≤ ev.quality then
            match registerFace g ev.extraction username with
            | ((true, msg), g2) => (true, true, msg, g2)
            | ((false, msg), g2) => regLoop username rest g2 msg true
          else regLoop username rest g message captured
        else regLoop username rest g message captured
    | RegKey.cancelKey =>
        (true, captured, "❌ Registro cancelado por el usuario", g)
    | RegKey.other => regLoop username rest g message captured

/-- Model of `FaceAuthenticator.register_new_user` (face_auth.py:249-396):
validate the name, start the camera, run the capture loop, then return
success only when the loop completed, a frame was captured, and the final
message contains the substring `"exitosamente"` (face_auth.py:391). -/
def registerNewUser (g : Gallery) (cameraOk : Bool) (username : String)
    (events : List RegEv) (st : CamState) : (Bool × String) × Gallery × CamState :=
  if username = "" ∨ (pyStrip username.toList).length < 2 then
    ((false, "❌ El nombre debe tener al menos 2 caracteres"), g, st)
  else
    match startCamera cameraOk st with
    | (false, st2) => ((false, "❌ No se pudo iniciar la cámara"), g, st2)
    | (true, st2) =>
      match regLoop username events g "" false with
      | (complete, captured, message, g2) =>
        if complete ∧ captured ∧
            strContainsSub message.toList "exitosamente".toList then
          ((true, message), g2, st2)
        else
          ((false, if message = "" then "❌ Registro fallido" else message),
           g2, st2)

/-! ## Quality assessor (face_utils.py, `calculate_face_quality`) -/

/-- Number of pixels of a grayscale image (matrix of `uint8` values,
modelled as rationals). -/
def grayCount (gray : List (List ℚ)) : ℚ := ((gray.map List.length).sum : ℕ)

/-- Sum of all pixel values. -/
def graySum (gray : List (List ℚ)) : ℚ := (gray.map List.sum).sum

/-- Model of `np.mean(gray)`. -/
def grayMean (gray : List (List ℚ)) : ℚ := graySum gray / grayCount gray

/-- Model of `np.std(gray)`: the population standard deviation, the square
root of the mean squared deviation from the mean. -/
noncomputable def grayStd (gray : List (List ℚ)) : ℝ :=
  Real.sqrt
    (((gray.map (fun row =>
        (row.map (fun x => ((x : ℝ) - (grayMean gray : ℝ)) ^ 2)).sum)).sum) /
      (grayCount gray : ℝ))

/-- Branching core of `FaceUtils.calculate_face_quality`
(face_utils.py:194-248) as a function of the measured quantities: the crop
shape `(h, w)`, the mean brightness, the grayscale standard deviation and
the Laplacian variance.  The score starts at 100 and fixed penalties are
subtracted sequentially exactly as in the source, with the brightness bands
evaluated as an `elif` chain; the final score is clamped with
`max(0, min(100, score))` and the problem strings are accumulated in
order. -/
noncomputable def calculateFaceQualityCore (h w : Nat) (brightness : ℚ) (contrast : ℝ)
    (blur : ℝ) : ℤ × List String :=
  let s1 : ℤ := 100
  let p1 : List String := []
  let sp2 := if h < 50 ∨ w < 50 then (s1 - 40, p1 ++ ["Rostro muy pequeño"]) else (s1, p1)
  let aspectRatio : ℚ := if 0 < h then (w : ℚ) / (h : ℚ) else 0
  let sp3 :=
    if aspectRatio < 7/10 ∨ 13/10 < aspectRatio then
      (sp2.1 - 20, sp2.2 ++ ["Rostro muy estirado/comprimido"])
    else sp2
  let sp4 :=
    if brightness < 50 then (sp3.1 - 30, sp3.2 ++ ["Muy oscuro"])
    else if 200 < brightness then (sp3.1 - 20, sp3.2 ++ ["Muy brillante"])
    else if brightness < 100 then (sp3.1 - 10, sp3.2 ++ ["Oscuro"])
    else if 150 < brightness then (sp3.1 - 5, sp3.2 ++ ["Brillante"])
    else sp3
  let sp5 :=
    if contrast < 20 then (sp4.1 - 15, sp4.2 ++ ["Bajo contraste"]) else sp4
  let sp6 := if blur < 50 then (sp5.1 - 25, sp5.2 ++ ["Imagen borrosa"]) else sp5
  (max 0 (min 100 sp6.1), sp6.2)

/-- Model of `FaceUtils.calculate_face_quality` (face_utils.py:184-252) on
the happy path (non-degenerate crop).  `gray` is the grayscale version of
the crop (the `cv2.cvtColor` conversion being a boundary input) and `blur`
is the value of `cv2.Laplacian(gray, cv2.CV_64F).var()`, an external OpenCV
computation passed as an input; `h, w` come from `shape[:2]`, the mean
brightness from `np.mean` and the contrast from `np.std`. -/
noncomputable def calculateFaceQuality (gray : List (List ℚ)) (blur : ℝ) :
    ℤ × List String :=
  calculateFaceQualityCore gray.length (gray.headD []).length (grayMean gray)
    (grayStd gray) blur

/-- Specification-side quality score as a function of the measured
quantities, following the words of the claim: 100 minus the sum of exactly
the applicable fixed penalties — the single brightness-band penalty being
chosen by evaluating very dark `< 50`, very bright `> 200`, dark `< 100`,
bright `> 150` in that order — with the result clamped to the range
`[0, 100]`. -/
noncomputable def specFaceQualityCore (h w : Nat) (brightness : ℚ) (contrast : ℝ)
    (blur : ℝ) : ℤ :=
  let aspectRatio : ℚ := if 0 < h then (w : ℚ) / (h : ℚ) else 0
  let sizePenalty : ℤ := if h < 50 ∨ w < 50 then 40 else 0
  let aspectPenalty : ℤ :=
    if aspectRatio < 7/10 ∨ 13/10 < aspectRatio then 20 else 0
  let brightnessPenalty : ℤ :=
    if brightness < 50 then 30
    else if 200 < brightness then 20
    else if brightness < 100 then 10
    else if 150 < brightness then 5
    else 0
  let contrastPenalty : ℤ := if contrast < 20 then 15 else 0
  let blurPenalty : ℤ := if blur < 50 then 25 else 0
  max 0 (min 100 (100 -
    (sizePenalty + aspectPenalty + brightnessPenalty + contrastPenalty +
      blurPenalty)))

/-- Specification-side quality score of a grayscale crop. -/
noncomputable def specFaceQuality (gray : List (List ℚ)) (blur : ℝ) : ℤ :=
  specFaceQualityCore gray.length (gray.headD []).length (grayMean gray)
    (grayStd gray) blur

/-! ## Helper lemmas about the vector primitives -/

theorem sumsq_nonneg (v : List ℝ) : 0 ≤ sumsq v := by
  apply List.sum_nonneg
  intro x hx
  rcases List.mem_map.1 hx with ⟨y, _, rfl⟩
  positivity

theorem sumsq_append (a b : List ℝ) : sumsq (a ++ b) = sumsq a + sumsq b := by
  simp [sumsq]

theorem sumsq_take_le (n : Nat) (v : List ℝ) : sumsq (v.take n) ≤ sumsq v := by
  have h : v = v.take n ++ v.drop n := (List.take_append_drop n v).symm
  calc sumsq (v.take n) ≤ sumsq (v.take n) + sumsq (v.drop n) := by
        have := sumsq_nonneg (v.drop n); linarith
    _ = sumsq v := by rw [← sumsq_append, ← h]

theorem sumsq_map_div (v : List ℝ) (c : ℝ) :
    sumsq (v.map (fun x => x / c)) = sumsq v / c ^ 2 := by
  induction v with
  | nil => simp [sumsq]
  | cons x xs ih =>
      simp only [sumsq, List.map_cons, List.sum_cons] at ih ⊢
      rw [ih, div_pow, div_add_div_same]

theorem norm2_nonneg (v : List ℝ) : 0 ≤ norm2 v := Real.sqrt_nonneg _

theorem norm2_pos_iff (v : List ℝ) : 0 < norm2 v ↔ 0 < sumsq v := by
  constructor
  · intro h
    rcases lt_or_eq_of_le (sumsq_nonneg v) with h2 | h2
    · exact h2
    · exfalso
      rw [norm2, ← h2, Real.sqrt_zero] at h
      exact lt_irrefl 0 h
  · intro h
    exact Real.sqrt_pos.2 h

theorem norm2_sq (v : List ℝ) : norm2 v ^ 2 = sumsq v := by
  rw [norm2, Real.sq_sqrt (sumsq_nonneg v)]

theorem sumsq_normalize_le_one (v : List ℝ) :
    sumsq (normalizeEmbeddingVector v) ≤ 1 := by
  rw [normalizeEmbeddingVector]
  by_cases h : 0 < norm2 v
  · rw [if_pos h, sumsq_map_div, norm2_sq]
    have hs : 0 < sumsq v := (norm2_pos_iff v).1 h
    rw [div_self (ne_of_gt hs)]
  · rw [if_neg h]
    have h0 : norm2 v = 0 := le_antisymm (not_lt.1 h) (norm2_nonneg v)
    have hs : sumsq v = 0 := by
      have := norm2_sq v
      rw [h0] at this
      simpa using this.symm
    rw [hs]; norm_num

theorem length_normalizeEmbeddingVector (v : List ℝ) :
    (normalizeEmbeddingVector v).length = v.length := by
  rw [normalizeEmbeddingVector]
  by_cases h : 0 < norm2 v
  · rw [if_pos h, List.length_map]
  · rw [if_neg h]

theorem sumsq_zipWith_add (u : List ℝ) :
    ∀ v : List ℝ,
      sumsq (List.zipWith (fun a b => a + b) u v) =
        sumsq (u.take v.length) + 2 * dotList u v + sumsq (v.take u.length) := by
  induction u with
  | nil => intro v; simp [sumsq, dotList]
  | cons x xs ih =>
      intro v
      cases v with
      | nil => simp [sumsq, dotList]
      | cons y ys =>
          simp only [List.zipWith_cons_cons, List.length_cons, List.take_succ_cons,
            sumsq, dotList, List.map_cons, List.sum_cons] at ih ⊢
          have h := ih ys
          ring_nf
          ring_nf at h
          linarith

theorem dotList_ge_neg_one (u v : List ℝ) (hu : sumsq u ≤ 1) (hv : sumsq v ≤ 1) :
    -1 ≤ dotList u v := by
  have h0 : 0 ≤ sumsq (List.zipWith (fun a b => a + b) u v) := sumsq_nonneg _
  rw [sumsq_zipWith_add] at h0
  have h1 : sumsq (u.take v.length) ≤ sumsq u := sumsq_take_le _ _
  have h2 : sumsq (v.take u.length) ≤ sumsq v := sumsq_take_le _ _
  linarith

theorem simTo_ge_neg_one (q e : List ℝ) : -1 ≤ simTo q e :=
  dotList_ge_neg_one _ _ (sumsq_normalize_le_one _) (sumsq_normalize_le_one _)

/-! ## Helper lemmas about padding and extraction -/

theorem padLandmarks_length (l : List ℝ) : 1404 ≤ (padLandmarks l).length := by
  by_cases h : l.length < 1404
  · rw [padLandmarks, if_pos h]
    exact padLandmarks_length (l ++ [0, 0, 0])
  · rw [padLandmarks, if_neg h]
    omega
termination_by 1404 - l.length
decreasing_by simp [List.length_append]; omega

theorem padLandmarks_spec (l : List ℝ) (h1 : l.length ≤ 1404)
    (h2 : 3 ∣ (1404 - l.length)) :
    padLandmarks l = l ++ List.replicate (1404 - l.length) 0 := by
  by_cases h : l.length < 1404
  · rw [padLandmarks, if_pos h]
    have hge : 3 ≤ 1404 - l.length := by omega
    have h1' : (l ++ [0, 0, 0]).length ≤ 1404 := by
      simp [List.length_append]; omega
    have h2' : 3 ∣ (1404 - (l ++ [0, 0, 0]).length) := by
      simp only [List.length_append, List.length_cons, List.length_nil]
      omega
    rw [padLandmarks_spec (l ++ [0, 0, 0]) h1' h2']
    have hlen : (l ++ [0, 0, 0]).length = l.length + 3 := by
      simp [List.length_append]
    rw [hlen, List.append_assoc]
    congr 1
    have : (0 : ℝ) :: 0 :: 0 :: List.replicate (1404 - (l.length + 3)) 0 =
        List.replicate (1404 - l.length) 0 := by
      have hrep : 1404 - l.length = (1404 - (l.length + 3)) + 3 := by omega
      rw [hrep]
      simp [List.replicate_succ]
    simpa using this
  · rw [padLandmarks, if_neg h]
    have : l.length = 1404 := by omega
    rw [this]
    simp
termination_by 1404 - l.length
decreasing_by simp [List.length_append]; omega

theorem sumsq_replicate_zero (n : Nat) : sumsq (List.replicate n (0 : ℝ)) = 0 := by
  induction n with
  | zero => simp [sumsq]
  | succ k ih =>
      rw [List.replicate_succ]
      simp only [sumsq, List.map_cons, List.sum_cons] at ih ⊢
      rw [ih]
      norm_num

theorem normalize_replicate_zero (n : Nat) :
    normalizeEmbeddingVector (List.replicate n (0 : ℝ)) =
      List.replicate n (0 : ℝ) := by
  rw [normalizeEmbeddingVector, if_neg]
  rw [norm2_pos_iff, sumsq_replicate_zero]
  exact lt_irrefl 0

theorem extractFaceEmbedding_length (available : Bool)
    (faces : Option (List (ℝ × ℝ × ℝ))) (v : List ℝ)
    (h : extractFaceEmbedding available faces = some v) : v.length = 1404 := by
  cases available with
  | false => simp [extractFaceEmbedding] at h
  | true =>
      cases faces with
      | none => simp [extractFaceEmbedding] at h
      | some lms =>
          simp only [extractFaceEmbedding, Bool.true_eq_false, if_false,
            Option.some.injEq] at h
          rw [← h, length_normalizeEmbeddingVector, List.length_take]
          have := padLandmarks_length (flattenLandmarks lms)
          omega

/-! ## Helper lemmas about the linear scan -/

theorem firstArgmaxBy_eq_none {α β : Type} [LinearOrder β] (f : α → β)
    (l : List α) : firstArgmaxBy f l = none ↔ l = [] := by
  cases l with
  | nil => simp [firstArgmaxBy]
  | cons a t =>
      cases hr : firstArgmaxBy f t with
      | none => simp [firstArgmaxBy, hr]
      | some b =>
          by_cases hc : f a < f b <;> simp [firstArgmaxBy, hr, hc]

theorem firstArgmaxBy_decomp {α β : Type} [LinearOrder β] (f : α → β) :
    ∀ (l : List α) (v : α), firstArgmaxBy f l = some v →
      ∃ pre post, l = pre ++ v :: post ∧ (∀ x ∈ l, f x ≤ f v) ∧
        ∀ x ∈ pre, f x < f v := by
  intro l
  induction l with
  | nil => intro v h; exact absurd h (by simp [firstArgmaxBy])
  | cons a t ih =>
      intro v h
      cases hr : firstArgmaxBy f t with
      | none =>
          simp only [firstArgmaxBy, hr, Option.some.injEq] at h
          subst h
          have ht : t = [] := (firstArgmaxBy_eq_none f t).1 hr
          subst ht
          exact ⟨[], [], by simp, by simp, by simp⟩
      | some b =>
          rcases ih b hr with ⟨pre, post, hsplit, hmax, hstrict⟩
          by_cases hc : f a < f b
          · simp only [firstArgmaxBy, hr, if_pos hc, Option.some.injEq] at h
            subst h
            refine ⟨a :: pre, post, by rw [hsplit]; simp, ?_, ?_⟩
            · intro x hx
              rcases List.mem_cons.1 hx with rfl | hx
              · exact le_of_lt hc
              · exact hmax x hx
            · intro x hx
              rcases List.mem_cons.1 hx with rfl | hx
              · exact hc
              · exact hstrict x hx
          · simp only [firstArgmaxBy, hr, if_neg hc, Option.some.injEq] at h
            subst h
            refine ⟨[], t, by simp, ?_, by simp⟩
            intro x hx
            rcases List.mem_cons.1 hx with rfl | hx
            · exact le_refl _
            · exact le_trans (hmax x hx) (not_lt.1 hc)

theorem foldl_scanStep (q : List ℝ) :
    ∀ (l : List (List ℝ × String)) (b : ℝ) (m : Option String),
      l.foldl (scanStep q) (b, m) =
        match firstArgmaxBy
            (fun p : List ℝ × String =>
              dotList q (normalizeEmbeddingVector (resizeEmbedding p.1 1404))) l with
        | none => (b, m)
        | some v =>
            if b < dotList q (normalizeEmbeddingVector (resizeEmbedding v.1 1404))
            then (dotList q (normalizeEmbeddingVector (resizeEmbedding v.1 1404)),
                  some v.2)
            else (b, m) := by
  intro l
  induction l with
  | nil => intro b m; simp [firstArgmaxBy]
  | cons p t ih =>
      intro b m
      set f := fun p : List ℝ × String =>
        dotList q (normalizeEmbeddingVector (resizeEmbedding p.1 1404)) with hf
      have hstep : ∀ (acc : ℝ × Option String) (x : List ℝ × String),
          scanStep q acc x = if acc.1 < f x then (f x, some x.2) else acc := by
        intro acc x
        rfl
      rw [List.foldl_cons, hstep (b, m) p]
      by_cases hc : b < f p
      · rw [if_pos hc, ih (f p) (some p.2)]
        cases hr : firstArgmaxBy f t with
        | none =>
            have ht : t = [] := (firstArgmaxBy_eq_none f t).1 hr
            subst ht
            simp [firstArgmaxBy, hc]
        | some v =>
            by_cases hc2 : f p < f v
            · have hbv : b < f v := lt_trans hc hc2
              simp [firstArgmaxBy, hr, hc2, hbv]
            · simp [firstArgmaxBy, hr, hc2, hc]
      · rw [if_neg hc, ih b m]
        cases hr : firstArgmaxBy f t with
        | none =>
            have ht : t = [] := (firstArgmaxBy_eq_none f t).1 hr
            subst ht
            simp [firstArgmaxBy, hc]
        | some v =>
            by_cases hc2 : f p < f v
            · simp [firstArgmaxBy, hr, hc2]
            · have hvb : ¬ b < f v := by
                have := le_trans (not_lt.1 hc2) (not_lt.1 hc)
                exact not_lt.2 this
              simp [firstArgmaxBy, hr, hc2, hc, hvb]

theorem foldl_scanStep_some (q : List ℝ) (l : List (List ℝ × String)) (b : ℝ)
    (m : Option String) (v : List ℝ × String)
    (hv : firstArgmaxBy
      (fun p : List ℝ × String =>
        dotList q (normalizeEmbeddingVector (resizeEmbedding p.1 1404))) l =
      some v) :
    l.foldl (scanStep q) (b, m) =
      if b < dotList q (normalizeEmbeddingVector (resizeEmbedding v.1 1404))
      then (dotList q (normalizeEmbeddingVector (resizeEmbedding v.1 1404)),
            some v.2)
      else (b, m) := by
  rw [foldl_scanStep q l b m, hv]

/-! ## Claim theorems -/

/-- C6: for every input (any availability flag and any landmark list the
external model produced, of any length, with or without refinement), the
embedding extractor either returns null or returns a vector of exactly the
canonical dimension 1404: landmarks beyond the first 468 are ignored and
missing landmarks are zero-padded. -/
theorem C6_extract_dimension_canonical (available : Bool)
    (faces : Option (List (ℝ × ℝ × ℝ))) :
    extractFaceEmbedding available faces = none ∨
      ∃ v, extractFaceEmbedding available faces = some v ∧ v.length = 1404 := by
  cases h : extractFaceEmbedding available faces with
  | none => exact Or.inl rfl
  | some v =>
      exact Or.inr ⟨v, rfl, extractFaceEmbedding_length available faces v h⟩

/-- C7: whenever the gallery is empty or the query extraction returned
null, `recognize_face` returns `("Desconocido", 0.0)`; the result is the
same for every gallery content and every query, which captures that no
gallery entry is scanned. -/
theorem C7_unknown_on_empty_or_null (threshold : ℝ) (knownNames : List String)
    (knownEmbeddings : List (List ℝ)) (queryExtraction : Option (List ℝ))
    (h : knownEmbeddings = [] ∨ queryExtraction = none) :
    recognizeFace threshold knownNames knownEmbeddings queryExtraction =
      ("Desconocido", 0) := by
  rcases h with h | h
  · subst h; simp [recognizeFace]
  · subst h
    rw [recognizeFace]
    by_cases he : knownEmbeddings.length = 0
    · rw [if_pos he]
    · rw [if_neg he]

/-- C7 witness: concrete evaluation on the empty gallery with a non-null
query. -/
theorem C7_witness :
    recognizeFace (7/50) [] [] (some [(1 : ℝ)]) = ("Desconocido", 0) :=
  C7_unknown_on_empty_or_null (7/50) [] [] (some [1]) (Or.inl rfl)

/-- C2: on a non-empty gallery with a non-null query and a positive
threshold (the default is 0.14), `recognize_face` performs a linear scan
tracking the maximal cosine similarity: there is a gallery record `best`
whose similarity is maximal, every record strictly before it has strictly
smaller similarity (first-seen wins ties), and the returned value is the
best record name when `(s + 1) / 2 ≥ threshold` (inclusive comparison) and
`("Desconocido", (s + 1) / 2)` otherwise. -/
theorem C2_recognize_linear_scan (threshold : ℝ) (knownNames : List String)
    (knownEmbeddings : List (List ℝ)) (q0 : List ℝ)
    (hne : knownEmbeddings.zip knownNames ≠ []) (hth : 0 < threshold) :
    ∃ pre best post,
      knownEmbeddings.zip knownNames = pre ++ best :: post ∧
      (∀ p ∈ knownEmbeddings.zip knownNames, simTo q0 p.1 ≤ simTo q0 best.1) ∧
      (∀ p ∈ pre, simTo q0 p.1 < simTo q0 best.1) ∧
      recognizeFace threshold knownNames knownEmbeddings (some q0) =
        (if threshold ≤ (simTo q0 best.1 + 1) / 2 then best.2 else "Desconocido",
         (simTo q0 best.1 + 1) / 2) := by
  have hemb : ¬ knownEmbeddings.length = 0 := by
    intro h
    apply hne
    have : knownEmbeddings = [] := List.length_eq_zero.1 h
    rw [this]
    rfl
  obtain ⟨v, hv⟩ : ∃ v,
      firstArgmaxBy
        (fun p : List ℝ × String =>
          dotList (normalizeEmbeddingVector (resizeEmbedding q0 1404))
            (normalizeEmbeddingVector (resizeEmbedding p.1 1404)))
        (knownEmbeddings.zip knownNames) = some v := by
    cases hx : firstArgmaxBy
        (fun p : List ℝ × String =>
          dotList (normalizeEmbeddingVector (resizeEmbedding q0 1404))
            (normalizeEmbeddingVector (resizeEmbedding p.1 1404)))
        (knownEmbeddings.zip knownNames) with
    | none => exact absurd ((firstArgmaxBy_eq_none _ _).1 hx) hne
    | some v => exact ⟨v, rfl⟩
  obtain ⟨pre, post, hsplit, hmax, hstrict⟩ := firstArgmaxBy_decomp _ _ v hv
  refine ⟨pre, v, post, hsplit, hmax, hstrict, ?_⟩
  have hfold := foldl_scanStep_some
    (normalizeEmbeddingVector (resizeEmbedding q0 1404))
    (knownEmbeddings.zip knownNames) (-1) none v hv
  rcases lt_or_eq_of_le (simTo_ge_neg_one q0 v.1) with hgt | heq
  · simp only [simTo] at hgt
    rw [if_pos hgt] at hfold
    simp only [recognizeFace, hemb, if_false, simTo]
    rw [hfold]
    dsimp only
    split_ifs with hcond <;> rfl
  · simp only [simTo] at heq
    have hnlt : ¬ (-1 : ℝ) <
        dotList (normalizeEmbeddingVector (resizeEmbedding q0 1404))
          (normalizeEmbeddingVector (resizeEmbedding v.1 1404)) := by
      rw [← heq]
      exact lt_irrefl _
    rw [if_neg hnlt] at hfold
    simp only [recognizeFace, hemb, if_false, simTo]
    rw [hfold]
    simp only [← heq]
    have h0 : ((-1 : ℝ) + 1) / 2 = 0 := by norm_num
    rw [h0, if_neg (not_le.2 hth)]

/-- C2 witness: a two-record gallery in which both records carry the same
embedding (a tie, won by the first-seen record "Ana"); the query is
engineered so the best cosine similarity is exactly `-18/25`, whose mapped
confidence `7/50` sits exactly at the default threshold, exercising the
inclusive comparison. -/
theorem C2_witness :
    ∃ pre best post,
      ([[(-18 : ℝ), 16, 6, 3], [(-18 : ℝ), 16, 6, 3]].zip ["Ana", "Bob"]) =
        pre ++ best :: post ∧
      (∀ p ∈ ([[(-18 : ℝ), 16, 6, 3], [(-18 : ℝ), 16, 6, 3]].zip ["Ana", "Bob"]),
        simTo [(1 : ℝ)] p.1 ≤ simTo [(1 : ℝ)] best.1) ∧
      (∀ p ∈ pre, simTo [(1 : ℝ)] p.1 < simTo [(1 : ℝ)] best.1) ∧
      recognizeFace (7/50) ["Ana", "Bob"]
        [[(-18 : ℝ), 16, 6, 3], [(-18 : ℝ), 16, 6, 3]] (some [(1 : ℝ)]) =
        (if (7/50 : ℝ) ≤ (simTo [(1 : ℝ)] best.1 + 1) / 2 then best.2
         else "Desconocido", (simTo [(1 : ℝ)] best.1 + 1) / 2) :=
  C2_recognize_linear_scan (7/50) ["Ana", "Bob"]
    [[(-18 : ℝ), 16, 6, 3], [(-18 : ℝ), 16, 6, 3]] [(1 : ℝ)] (by simp)
    (by norm_num)

/-! ### C3: zero-norm behaviour of the extractor -/

theorem flattenLandmarks_zero : flattenLandmarks [((0 : ℝ), 0, 0)] = [0, 0, 0] := rfl

theorem padLandmarks_zero :
    padLandmarks [(0 : ℝ), 0, 0] = List.replicate 1404 (0 : ℝ) := by
  have h := padLandmarks_spec [(0 : ℝ), 0, 0] (by simp) (by norm_num)
  rw [h]
  have h3 : ([(0 : ℝ), 0, 0] : List ℝ) = List.replicate 3 0 := rfl
  have hlen : (1404 : Nat) - ([(0 : ℝ), 0, 0] : List ℝ).length = 1401 := by simp
  rw [hlen, h3, ← List.replicate_add]

theorem extract_zero_landmark_eval :
    extractFaceEmbedding true (some [((0 : ℝ), 0, 0)]) =
      some (List.replicate 1404 (0 : ℝ)) := by
  simp only [extractFaceEmbedding, Bool.true_eq_false, if_false,
    Option.some.injEq]
  rw [flattenLandmarks_zero, padLandmarks_zero,
    List.take_of_length_le (by rw [List.length_replicate]), normalize_replicate_zero]

/-- C3 counterexample: the all-zero landmark input flattens and pads to the
zero vector, whose Euclidean norm is 0, yet the extractor returns
`some` (the unnormalized zero vector) instead of the null result the claim
requires. -/
theorem C3_counterexample :
    norm2 ((padLandmarks (flattenLandmarks [((0 : ℝ), 0, 0)])).take 1404) = 0 ∧
    extractFaceEmbedding true (some [((0 : ℝ), 0, 0)]) =
      some (List.replicate 1404 (0 : ℝ)) := by
  constructor
  · rw [flattenLandmarks_zero, padLandmarks_zero,
      List.take_of_length_le (by rw [List.length_replicate]), norm2, sumsq_replicate_zero,
      Real.sqrt_zero]
  · exact extract_zero_landmark_eval

/-- C3 (amended): whenever the extractor returns a non-null vector, that
vector is the flattened/padded landmark vector divided by its Euclidean
norm when the norm is strictly positive, and the unchanged (zero-norm)
vector — not null — when the norm is zero. -/
theorem C3_nonnull_vector_normalization (available : Bool)
    (faces : Option (List (ℝ × ℝ × ℝ))) (v : List ℝ)
    (h : extractFaceEmbedding available faces = some v) :
    ∃ lms, faces = some lms ∧
      ((0 < norm2 ((padLandmarks (flattenLandmarks lms)).take 1404) ∧
        v = ((padLandmarks (flattenLandmarks lms)).take 1404).map
          (fun x => x / norm2 ((padLandmarks (flattenLandmarks lms)).take 1404))) ∨
       (norm2 ((padLandmarks (flattenLandmarks lms)).take 1404) = 0 ∧
        v = (padLandmarks (flattenLandmarks lms)).take 1404)) := by
  cases available with
  | false => simp [extractFaceEmbedding] at h
  | true =>
      cases faces with
      | none => simp [extractFaceEmbedding] at h
      | some lms =>
          refine ⟨lms, rfl, ?_⟩
          simp only [extractFaceEmbedding, Bool.true_eq_false, if_false,
            Option.some.injEq] at h
          rw [← h, normalizeEmbeddingVector]
          by_cases hp :
            0 < norm2 ((padLandmarks (flattenLandmarks lms)).take 1404)
          · rw [if_pos hp]
            exact Or.inl ⟨hp, rfl⟩
          · rw [if_neg hp]
            exact Or.inr ⟨le_antisymm (not_lt.1 hp) (norm2_nonneg _), rfl⟩

/-- C3 witness: the amended theorem applied at the concrete all-zero
landmark input, whose padded vector has norm zero. -/
theorem C3_witness :
    ∃ lms, (some [((0 : ℝ), 0, 0)] : Option (List (ℝ × ℝ × ℝ))) = some lms ∧
      ((0 < norm2 ((padLandmarks (flattenLandmarks lms)).take 1404) ∧
        List.replicate 1404 (0 : ℝ) =
          ((padLandmarks (flattenLandmarks lms)).take 1404).map
            (fun x => x / norm2 ((padLandmarks (flattenLandmarks lms)).take 1404))) ∨
       (norm2 ((padLandmarks (flattenLandmarks lms)).take 1404) = 0 ∧
        List.replicate 1404 (0 : ℝ) =
          (padLandmarks (flattenLandmarks lms)).take 1404)) :=
  C3_nonnull_vector_normalization true (some [((0 : ℝ), 0, 0)])
    (List.replicate 1404 (0 : ℝ)) extract_zero_landmark_eval

/-! ### C9: the quality score -/

set_option maxHeartbeats 1000000 in
theorem quality_core_eq (h w : Nat) (brightness : ℚ) (contrast : ℝ)
    (blur : ℝ) :
    (calculateFaceQualityCore h w brightness contrast blur).1 =
      specFaceQualityCore h w brightness contrast blur := by
  unfold calculateFaceQualityCore specFaceQualityCore
  dsimp only
  by_cases h1 : h < 50 ∨ w < 50 <;>
  by_cases h2 : (if 0 < h then (w : ℚ) / h else 0) < 7/10 ∨
    13/10 < (if 0 < h then (w : ℚ) / h else 0) <;>
  by_cases h3 : brightness < 50 <;>
  by_cases h4 : 200 < brightness <;>
  by_cases h5 : brightness < 100 <;>
  by_cases h6 : 150 < brightness <;>
  by_cases h7 : contrast < 20 <;>
  by_cases h8 : blur < 50 <;>
  simp only [h1, h2, h3, h4, h5, h6, h7, h8, if_true, if_false, ite_true,
    ite_false] <;>
  omega

/-- C9: the quality score computed by sequential penalty subtraction in
`calculate_face_quality` equals 100 minus the sum of exactly the applicable
fixed penalties, clamped to `[0, 100]`; moreover the brightness bands are
mutually exclusive — evaluating them in a different order selects the same
single band penalty. -/
theorem C9_quality_clamped_penalty_sum (gray : List (List ℚ)) (blur : ℝ) :
    (calculateFaceQuality gray blur).1 = specFaceQuality gray blur ∧
    ((if grayMean gray < 50 then (30 : ℤ)
      else if 200 < grayMean gray then 20
      else if grayMean gray < 100 then 10
      else if 150 < grayMean gray then 5
      else 0) =
     (if 200 < grayMean gray then (20 : ℤ)
      else if 150 < grayMean gray then 5
      else if grayMean gray < 50 then 30
      else if grayMean gray < 100 then 10
      else 0)) := by
  constructor
  · rw [calculateFaceQuality, specFaceQuality]
    rw [quality_core_eq]
  · split_ifs <;> first | rfl | linarith

/-! ### C8: failing registrations leave the gallery unchanged -/

/-- C8: every failing `register_face` call (invalid name, duplicate name,
or no face detected) returns the gallery unchanged; in particular, after a
successful registration of a fresh name, registering the same name again
fails with the duplicate-name message, leaves the gallery unchanged, and
the gallery holds exactly one record for that name. -/
theorem C8_register_failure_unchanged (g : Gallery) (e e2 : Option (List ℝ))
    (name : String) :
    ((registerFace g e name).1.1 = false → (registerFace g e name).2 = g) ∧
    (2 ≤ (sanitizeName name).length → sanitizeName name ∉ g.knownNames →
      ∀ emb, e = some emb →
        (registerFace g e name).1.1 = true ∧
        (registerFace (registerFace g e name).2 e2 name).1.1 = false ∧
        (registerFace (registerFace g e name).2 e2 name).1.2 =
          "❌ \x27" ++ sanitizeName name ++ "\x27 ya existe" ∧
        (registerFace (registerFace g e name).2 e2 name).2 =
          (registerFace g e name).2 ∧
        ((registerFace g e name).2).knownNames.count (sanitizeName name) = 1) := by
  constructor
  · intro hfail
    by_cases hva : sanitizeName name = "" ∨ (sanitizeName name).length < 2
    · simp only [registerFace]
      rw [if_pos hva]
    · by_cases hme : sanitizeName name ∈ g.knownNames
      · simp only [registerFace]
        rw [if_neg hva, if_pos hme]
      · cases e with
        | none =>
            simp only [registerFace]
            rw [if_neg hva, if_neg hme]
        | some emb =>
            exfalso
            simp only [registerFace] at hfail
            rw [if_neg hva, if_neg hme] at hfail
            simp at hfail
  · intro hlen hmem emb he
    subst he
    have hval : ¬(sanitizeName name = "" ∨ (sanitizeName name).length < 2) := by
      push_neg
      refine ⟨?_, by omega⟩
      intro h0
      rw [h0] at hlen
      simp at hlen
    have h1 : registerFace g (some emb) name =
        ((true, "✅ \x27" ++ sanitizeName name ++ "\x27 registrado"),
         ⟨g.knownNames ++ [sanitizeName name], g.knownEmbeddings ++ [emb]⟩) := by
      simp only [registerFace]
      rw [if_neg hval, if_neg hmem]
    have hmem2 : sanitizeName name ∈ g.knownNames ++ [sanitizeName name] := by
      simp
    have h2 : registerFace
        (⟨g.knownNames ++ [sanitizeName name], g.knownEmbeddings ++ [emb]⟩ :
          Gallery) e2 name =
        ((false, "❌ \x27" ++ sanitizeName name ++ "\x27 ya existe"),
         ⟨g.knownNames ++ [sanitizeName name], g.knownEmbeddings ++ [emb]⟩) := by
      simp only [registerFace]
      rw [if_neg hval, if_pos hmem2]
    rw [h1, h2]
    refine ⟨rfl, rfl, rfl, rfl, ?_⟩
    have hz : g.knownNames.count (sanitizeName name) = 0 :=
      List.count_eq_zero.2 hmem
    simp [List.count_append, hz]

/-- C8 witness: the theorem applied to the empty gallery and the name
"Ana"; the first call succeeds, the repeated call fails with the
duplicate-name error and one record remains. -/
theorem C8_witness :
    ((registerFace ⟨[], []⟩ (some [(1 : ℝ)]) "Ana").1.1 = false →
      (registerFace ⟨[], []⟩ (some [(1 : ℝ)]) "Ana").2 = ⟨[], []⟩) ∧
    (2 ≤ (sanitizeName "Ana").length → sanitizeName "Ana" ∉ ([] : List String) →
      ∀ emb, (some [(1 : ℝ)] : Option (List ℝ)) = some emb →
        (registerFace ⟨[], []⟩ (some [(1 : ℝ)]) "Ana").1.1 = true ∧
        (registerFace (registerFace ⟨[], []⟩ (some [(1 : ℝ)]) "Ana").2
          (some [(1 : ℝ)]) "Ana").1.1 = false ∧
        (registerFace (registerFace ⟨[], []⟩ (some [(1 : ℝ)]) "Ana").2
          (some [(1 : ℝ)]) "Ana").1.2 =
          "❌ \x27" ++ sanitizeName "Ana" ++ "\x27 ya existe" ∧
        (registerFace (registerFace ⟨[], []⟩ (some [(1 : ℝ)]) "Ana").2
          (some [(1 : ℝ)]) "Ana").2 =
          (registerFace ⟨[], []⟩ (some [(1 : ℝ)]) "Ana").2 ∧
        ((registerFace ⟨[], []⟩ (some [(1 : ℝ)]) "Ana").2).knownNames.count
          (sanitizeName "Ana") = 1) :=
  C8_register_failure_unchanged ⟨[], []⟩ (some [(1 : ℝ)]) (some [(1 : ℝ)]) "Ana"

/-! ### C10: the two parallel lists keep equal length -/

theorem normalizeEmbeddings_length (es : List (List ℝ)) :
    (normalizeEmbeddings es).length = es.length := by
  unfold normalizeEmbeddings
  split <;> simp

theorem processImageFiles_eqlen :
    ∀ (files : List (Option (String × Option (List ℝ)))) (g : Gallery),
      g.knownNames.length = g.knownEmbeddings.length →
      (processImageFiles g files).knownNames.length =
        (processImageFiles g files).knownEmbeddings.length := by
  intro files
  induction files with
  | nil => intro g hg; simpa [processImageFiles] using hg
  | cons f rest ih =>
      intro g hg
      cases f with
      | none =>
          simp only [processImageFiles]
          exact ih g hg
      | some p =>
          cases p with
          | mk stem eOpt =>
              cases eOpt with
              | none =>
                  simp only [processImageFiles]
                  exact ih g hg
              | some emb =>
                  simp only [processImageFiles]
                  exact ih _ (by simp [hg])

/-- C10: starting from a gallery whose two parallel lists have equal
length, every modelled gallery operation — `register_face` (on success and
on failure), `delete_user`, `_load_from_images`, and the cache-load
assignment — produces a state whose `known_names` and `known_embeddings`
again have equal length, so every name has exactly one embedding at the
matching position. -/
theorem C10_parallel_lists_equal_length (g : Gallery)
    (hg : g.knownNames.length = g.knownEmbeddings.length) :
    (∀ e name, ((registerFace g e name).2).knownNames.length =
        ((registerFace g e name).2).knownEmbeddings.length) ∧
    (∀ name, ((deleteUser g name).2).knownNames.length =
        ((deleteUser g name).2).knownEmbeddings.length) ∧
    (∀ files, (loadFromImages g files).knownNames.length =
        (loadFromImages g files).knownEmbeddings.length) ∧
    (∀ (cachedNames : List String) (cachedEmbeddings : List (List ℝ)),
        cachedNames.length = cachedEmbeddings.length →
        (loadFromCache cachedNames cachedEmbeddings).knownNames.length =
          (loadFromCache cachedNames cachedEmbeddings).knownEmbeddings.length) := by
  refine ⟨?_, ?_, ?_, ?_⟩
  · intro e name
    by_cases hva : sanitizeName name = "" ∨ (sanitizeName name).length < 2
    · simp only [registerFace]
      rw [if_pos hva]
      exact hg
    · by_cases hme : sanitizeName name ∈ g.knownNames
      · simp only [registerFace]
        rw [if_neg hva, if_pos hme]
        exact hg
      · cases e with
        | none =>
            simp only [registerFace]
            rw [if_neg hva, if_neg hme]
            exact hg
        | some emb =>
            simp only [registerFace]
            rw [if_neg hva, if_neg hme]
            simp [hg]
  · intro name
    by_cases hme : name ∈ g.knownNames
    · simp only [deleteUser]
      rw [if_pos hme]
      have hidx : g.knownNames.indexOf name < g.knownNames.length :=
        List.indexOf_lt_length.2 hme
      have h1 := List.length_eraseIdx_add_one hidx
      have h2 := List.length_eraseIdx_add_one (l := g.knownEmbeddings)
        (i := g.knownNames.indexOf name) (by omega)
      dsimp only
      omega
    · simp only [deleteUser]
      rw [if_neg hme]
      exact hg
  · intro files
    simp only [loadFromImages, normalizeEmbeddings_length]
    exact processImageFiles_eqlen files g hg
  · intro cachedNames cachedEmbeddings hc
    simp only [loadFromCache, normalizeEmbeddings_length]
    exact hc

/-- C10 witness: the theorem applied to the empty gallery, with each
conjunct instantiated at concrete arguments. -/
theorem C10_witness :
    ((registerFace ⟨[], []⟩ (some [(1 : ℝ)]) "Ana").2).knownNames.length =
      ((registerFace ⟨[], []⟩ (some [(1 : ℝ)]) "Ana").2).knownEmbeddings.length ∧
    ((deleteUser ⟨[], []⟩ "Ana").2).knownNames.length =
      ((deleteUser ⟨[], []⟩ "Ana").2).knownEmbeddings.length ∧
    (loadFromImages ⟨[], []⟩ [some ("Ana", some [(1 : ℝ)])]).knownNames.length =
      (loadFromImages ⟨[], []⟩ [some ("Ana", some [(1 : ℝ)])]).knownEmbeddings.length ∧
    (loadFromCache ["Ana"] [[(1 : ℝ)]]).knownNames.length =
      (loadFromCache ["Ana"] [[(1 : ℝ)]]).knownEmbeddings.length :=
  ⟨(C10_parallel_lists_equal_length ⟨[], []⟩ rfl).1 (some [(1 : ℝ)]) "Ana",
   (C10_parallel_lists_equal_length ⟨[], []⟩ rfl).2.1 "Ana",
   (C10_parallel_lists_equal_length ⟨[], []⟩ rfl).2.2.1 [some ("Ana", some [(1 : ℝ)])],
   (C10_parallel_lists_equal_length ⟨[], []⟩ rfl).2.2.2 ["Ana"] [[(1 : ℝ)]] rfl⟩

/-! ### C1: the consecutive-match counter ignores the matched identity -/

/-- C1 counterexample: on the per-frame match sequence
`[A, A, B, A, A, A]` (every frame confident, confidence 1 at threshold
7/50), the scanning loop accepts already on the third frame, with the name
"B" of that frame — the counter is never reset when the matched name
changes, so acceptance does not wait for the final run of three identical
names.  The 3-frame prefix alone already accepts. -/
theorem C1_counterexample :
    authScan (7/50) 3
      [FrameEv.frame "A" 1, FrameEv.frame "A" 1, FrameEv.frame "B" 1,
       FrameEv.frame "A" 1, FrameEv.frame "A" 1, FrameEv.frame "A" 1]
      0 none 0 = (true, some "B", 1) ∧
    authScan (7/50) 3
      [FrameEv.frame "A" 1, FrameEv.frame "A" 1, FrameEv.frame "B" 1]
      0 none 0 = (true, some "B", 1) := by
  constructor <;> norm_num [authScan] <;> simp

/-- C1 (amended): the code keeps no `last_matched_name` — any three
consecutive confident per-frame matches (name other than "Desconocido",
confidence at or above the threshold) cause acceptance on the third frame,
with that frame's name and confidence, regardless of whether the three
names agree. -/
theorem C1_accepts_three_confident_frames (minConfidence : ℝ)
    (n1 n2 n3 : String) (c1 c2 c3 : ℝ) (rest : List FrameEv)
    (h1 : n1 ≠ "Desconocido") (h2 : n2 ≠ "Desconocido")
    (h3 : n3 ≠ "Desconocido") (hc1 : minConfidence ≤ c1)
    (hc2 : minConfidence ≤ c2) (hc3 : minConfidence ≤ c3) :
    authScan minConfidence 3
      (FrameEv.frame n1 c1 :: FrameEv.frame n2 c2 :: FrameEv.frame n3 c3 :: rest)
      0 none 0 = (true, some n3, c3) := by
  simp [authScan, h1, h2, h3, hc1, hc2, hc3]

/-- C1 witness: the amended theorem at the concrete mixed-name sequence
`[Ana, Ana, Bea, ...]`, all confident: acceptance on the third frame with
name "Bea". -/
theorem C1_witness :
    authScan (7/50) 3
      (FrameEv.frame "Ana" 1 :: FrameEv.frame "Ana" 1 ::
        FrameEv.frame "Bea" 1 :: []) 0 none 0 = (true, some "Bea", 1) :=
  C1_accepts_three_confident_frames (7/50) "Ana" "Ana" "Bea" 1 1 1 []
    (by decide) (by decide) (by decide) (by norm_num) (by norm_num)
    (by norm_num)

/-! ### C4: the session does not release the camera -/

/-- C4 counterexample: a run that starts with a closed camera, has one
registered user and accepts after three confident frames returns with the
camera handle still open and `is_camera_running` still set — the claimed
release on the accepted outcome does not happen. -/
theorem C4_counterexample :
    authenticateUser (7/50) 3 true 1
      [FrameEv.frame "Ana" 1, FrameEv.frame "Ana" 1, FrameEv.frame "Ana" 1]
      ⟨false, false⟩ =
      ((true, some "Ana", 1), ⟨true, true⟩) := by
  norm_num [authenticateUser, startCamera, authScan]
  simp

/-- C4 (amended): `authenticate_user` never calls `stop_camera`: on every
terminal outcome (accept, timeout by frame exhaustion, cancel) the camera
state at return is exactly the state `start_camera` produced — an open
handle — and is never released by the session. -/
theorem C4_session_never_releases_camera (minConfidence : ℝ) (required : Nat)
    (userCount : Nat) (frames : List FrameEv) (st : CamState)
    (hn : userCount ≠ 0) :
    (authenticateUser minConfidence required true userCount frames st).2 =
      (if st.opened then st else ⟨true, true⟩) ∧
    ((authenticateUser minConfidence required true userCount frames st).2).opened =
      true := by
  have hmain : (authenticateUser minConfidence required true userCount frames st).2 =
      if st.opened then st else ⟨true, true⟩ := by
    cases hop : st.opened with
    | false => simp [authenticateUser, startCamera, hn, hop]
    | true => simp [authenticateUser, startCamera, hn, hop]
  refine ⟨hmain, ?_⟩
  rw [hmain]
  cases hop : st.opened with
  | false => simp
  | true => simp [hop]

/-- C4 witness: the amended theorem at a concrete run (one user, no frames,
camera initially closed): the returned camera state is open with the
running flag set. -/
theorem C4_witness :
    (authenticateUser (7/50) 3 true 1 [] ⟨false, false⟩).2 =
      (if (⟨false, false⟩ : CamState).opened then (⟨false, false⟩ : CamState)
       else ⟨true, true⟩) ∧
    ((authenticateUser (7/50) 3 true 1 [] ⟨false, false⟩).2).opened = true :=
  C4_session_never_releases_camera (7/50) 3 1 [] ⟨false, false⟩ (by decide)

/-! ### C5: a successful capture still returns failure to the caller -/

/-- C5: evaluation of `register_new_user` at a capture with exactly one
detected face, quality 80 and a successful gallery add: the loop completes,
the gallery gains the record "Ana" and the message is the success message
of `register_face`, yet the final result flag is `false`, because the
returned message never contains the substring "exitosamente" that the
final check of `register_new_user` looks for. -/
theorem C5_successful_capture_returns_false :
    registerNewUser ⟨[], []⟩ true "Ana"
      [⟨1, 80, some [(1 : ℝ)], RegKey.space⟩] ⟨false, false⟩ =
      ((false, "✅ \x27Ana\x27 registrado"), ⟨["Ana"], [[(1 : ℝ)]]⟩,
        ⟨true, true⟩) := by
  rfl

end Asistent
